import Mathlib

/-!
Verification of the `Touch` gesture-recognizer component
(`packages/vkui/src/components/Touch/Touch.tsx`).

Shallow embedding notes:
* Coordinates and timestamps are `Int` (the recognizer only adds, subtracts,
  takes absolute values and compares, so integer inputs are modelled exactly).
* The JS `Gesture` record has optional fields (`undefined` when absent), so
  every field is an `Option`; JS truthiness of an optional boolean field is
  `truthy : Option Bool → Bool` (`undefined` is falsy).
* `didSlide.current` is assigned `gesture.current.isSlide` (possibly
  `undefined`) and is only ever read for truthiness, so it is modelled as a
  `Bool` holding the truthiness of the assigned value.
* Consumer callbacks are opaque; a handler's observable behaviour is the list
  of callback invocations it performs, modelled as a `List Out` trace.
  Each gesture-callback invocation records which callback fired, the spread
  gesture snapshot and the freshly computed `duration`.
* `stopPropagation && e.stopPropagation()` inside `handle` and the raw
  `originalEvent` payload are not observed by any claim and are omitted.
* DOM specifics are abstracted: an input event carries its coordinates, the
  current time, `e.touches` as `Option Nat` (number of touch points, `none`
  for mouse/pointer events which have no `touches` field) and its `type`
  string; a click event is its `target.closest('a')` verdict as a `Bool`.
-/

namespace Touch

/-- Configuration and registered-callback surface of the component
(`TouchProps`): for each optional consumer callback we record only whether it
was supplied, plus the `slideThreshold` / `noSlideClick` options with their
source defaults. -/
structure Props where
  hasOnStart : Bool := false
  hasOnStartX : Bool := false
  hasOnStartY : Bool := false
  hasOnMove : Bool := false
  hasOnMoveX : Bool := false
  hasOnMoveY : Bool := false
  hasOnEnd : Bool := false
  hasOnEndX : Bool := false
  hasOnEndY : Bool := false
  hasOnLeave : Bool := false
  hasOnClickCapture : Bool := false
  slideThreshold : Int := 5
  noSlideClick : Bool := false
  deriving Repr, DecidableEq

/-- The `Gesture` record; all fields optional exactly as in the source
interface, `{}` is the empty record `gesture.current = {}`. -/
structure Gesture where
  startX : Option Int := none
  startY : Option Int := none
  startT : Option Int := none
  isPressed : Option Bool := none
  isY : Option Bool := none
  isX : Option Bool := none
  isSlideX : Option Bool := none
  isSlideY : Option Bool := none
  isSlide : Option Bool := none
  shiftX : Option Int := none
  shiftY : Option Int := none
  shiftXAbs : Option Int := none
  shiftYAbs : Option Int := none
  deriving Repr, DecidableEq

/-- JS truthiness of an optional boolean field (`undefined` is falsy). -/
def truthy (o : Option Bool) : Bool := o.getD false

/-- A normalized input event: `coordX e`/`coordY e` as `x`/`y`, the time the
handler runs (`Date.now()`), the `touches` list length when the event has one,
and the event `type` string. -/
structure InputEvent where
  x : Int
  y : Int
  now : Int
  touches : Option Nat := none
  etype : String := "mousemove"
  deriving Repr, DecidableEq

/-- Which consumer callback an invocation went to. -/
inductive CbKind where
  | start | startX | startY
  | move | moveX | moveY
  | endG | endX | endY
  deriving Repr, DecidableEq

/-- One observable effect of a handler. -/
inductive Out where
  /-- A gesture callback call `cb({ ...gesture.current, duration, originalEvent: e })`:
  the callback, the gesture snapshot spread into the event, and the `duration`. -/
  | cb (k : CbKind) (snap : Gesture) (duration : Int)
  /-- The synthesized `onLeave(e)` call at the end of `onEnd`. -/
  | leave
  /-- `onClickCapture(e)` forwarded to the consumer. -/
  | clickForward
  /-- `e.preventDefault()` on a click event. -/
  | preventDefault
  /-- `e.stopPropagation()` on a click event. -/
  | stopProp
  deriving Repr, DecidableEq

/-- The component's mutable refs: `didSlide.current` and `gesture.current`. -/
structure TouchState where
  didSlide : Bool := false
  gesture : Gesture := {}
  deriving Repr, DecidableEq

/-- `handle(e, handers)`: for each truthy entry, call it with the current
gesture spread plus a freshly computed `duration`.  An entry is `(b, k)`
where `b` is the truthiness of the array element (e.g.
`isSlideX && onMoveX` is truthy iff both hold) and `k` identifies the
callback. -/
def handle (g : Gesture) (e : InputEvent) (cbs : List (Bool × CbKind)) : List Out :=
  (cbs.filter fun c => c.1).map fun c => Out.cb c.2 g (e.now - g.startT.getD 0)

/-- The fresh gesture record built by the start handler. -/
def freshGesture (e : InputEvent) : Gesture :=
  { startX := some e.x, startY := some e.y, startT := some e.now, isPressed := some true }

/-- The start listener: overwrite `gesture.current` with a fresh record and
dispatch `[onStart, onStartX, onStartY]`. -/
def startHandler (p : Props) (e : InputEvent) (s : TouchState) : TouchState × List Out :=
  let g := freshGesture e
  ({ s with gesture := g },
   handle g e [(p.hasOnStart, CbKind.start), (p.hasOnStartX, CbKind.startX),
               (p.hasOnStartY, CbKind.startY)])

/-- `!!e.touches && e.touches.length > 1`. -/
def isMultiTouch (e : InputEvent) : Bool :=
  match e.touches with
  | some n => decide (n > 1)
  | none => false

/-- `onEnd`: dispatch `[_onEnd, isSlideY && onEndY, isSlideX && onEndX]` when
pressed; unconditionally store `isSlide` into `didSlide` and clear the
gesture; synthesize `onLeave` for `touchend`/`touchcancel`. -/
def onEnd (p : Props) (e : InputEvent) (s : TouchState) : TouchState × List Out :=
  let g := s.gesture
  let outs :=
    if truthy g.isPressed then
      handle g e [(p.hasOnEnd, CbKind.endG),
                  (truthy g.isSlideY && p.hasOnEndY, CbKind.endY),
                  (truthy g.isSlideX && p.hasOnEndX, CbKind.endX)]
    else []
  let leaveOuts :=
    if (e.etype = "touchend" ∨ e.etype = "touchcancel") ∧ p.hasOnLeave = true then
      [Out.leave]
    else []
  (⟨truthy g.isSlide, {}⟩, outs ++ leaveOuts)

/-- `|shiftX|` of a move sample relative to the gesture's recorded start. -/
def shiftXAbsOf (e : InputEvent) (g : Gesture) : Int := |e.x - g.startX.getD 0|

/-- `|shiftY|` of a move sample relative to the gesture's recorded start. -/
def shiftYAbsOf (e : InputEvent) (g : Gesture) : Int := |e.y - g.startY.getD 0|

/-- `willBeX = shiftXAbs >= slideThreshold && shiftXAbs > shiftYAbs`. -/
def willBeX (p : Props) (e : InputEvent) (g : Gesture) : Bool :=
  decide (p.slideThreshold ≤ shiftXAbsOf e g ∧ shiftYAbsOf e g < shiftXAbsOf e g)

/-- `willBeY = shiftYAbs >= slideThreshold && shiftYAbs > shiftXAbs`. -/
def willBeY (p : Props) (e : InputEvent) (g : Gesture) : Bool :=
  decide (p.slideThreshold ≤ shiftYAbsOf e g ∧ shiftXAbsOf e g < shiftYAbsOf e g)

/-- `willBeSlidedX = willBeX && (!!onMoveX || !!onMove)`. -/
def willBeSlidedX (p : Props) (e : InputEvent) (g : Gesture) : Bool :=
  willBeX p e g && (p.hasOnMoveX || p.hasOnMove)

/-- `willBeSlidedY = willBeY && (!!onMoveY || !!onMove)`. -/
def willBeSlidedY (p : Props) (e : InputEvent) (g : Gesture) : Bool :=
  willBeY p e g && (p.hasOnMoveY || p.hasOnMove)

/-- The `Object.assign(gesture.current, { isY, isX, isSlideX, isSlideY, isSlide })`
performed while the axis is still undecided. -/
def lockUpdate (p : Props) (e : InputEvent) (g : Gesture) : Gesture :=
  { g with isY := some (willBeY p e g), isX := some (willBeX p e g),
           isSlideX := some (willBeSlidedX p e g), isSlideY := some (willBeSlidedY p e g),
           isSlide := some (willBeSlidedX p e g || willBeSlidedY p e g) }

/-- The `Object.assign(gesture.current, { shiftX, shiftY, shiftXAbs, shiftYAbs })`
of a slide-flagged move sample.  The shifts are computed from `startX`/`startY`
destructured from the gesture at handler entry; the axis decision never touches
the start fields, so `g.startX`/`g.startY` here are those same values. -/
def recordShifts (e : InputEvent) (g : Gesture) : Gesture :=
  { g with shiftX := some (e.x - g.startX.getD 0), shiftY := some (e.y - g.startY.getD 0),
           shiftXAbs := some (shiftXAbsOf e g), shiftYAbs := some (shiftYAbsOf e g) }

/-- Tail of the move handler after the axis decision produced `g1`
(`gesture.current` at line 148 of the source): when `gesture.current.isSlide`,
record the shifts and dispatch `[onMove, isSlideX && onMoveX, isSlideY && onMoveY]`. -/
def moveFinish (p : Props) (e : InputEvent) (s : TouchState) (g1 : Gesture) :
    TouchState × List Out :=
  if truthy g1.isSlide then
    let g2 := recordShifts e g1
    ({ s with gesture := g2 },
     handle g2 e [(p.hasOnMove, CbKind.move),
                  (truthy g2.isSlideX && p.hasOnMoveX, CbKind.moveX),
                  (truthy g2.isSlideY && p.hasOnMoveY, CbKind.moveY)])
  else ({ s with gesture := g1 }, [])

/-- The gesture after the axis-decision block of `onMove`: the lock fields
are (re)assigned while `!isX && !isY`, untouched once an axis is locked. -/
def gDecided (p : Props) (e : InputEvent) (g : Gesture) : Gesture :=
  if !truthy g.isX && !truthy g.isY then lockUpdate p e g else g

/-- Body of `onMove` once `isPressed` holds and no multi-touch was detected:
the axis decision while `!isX && !isY`, then the slide-dispatch tail. -/
def moveStep (p : Props) (e : InputEvent) (s : TouchState) : TouchState × List Out :=
  moveFinish p e s (gDecided p e s.gesture)

/-- `onMove`: guarded by `isPressed`; aborts to `onEnd` on multi-touch
(the source computes the shift locals before that check, but they are pure,
so the check commutes with them); otherwise runs `moveStep`. -/
def onMove (p : Props) (e : InputEvent) (s : TouchState) : TouchState × List Out :=
  if truthy s.gesture.isPressed then
    if isMultiTouch e then onEnd p e s else moveStep p e s
  else (s, [])

/-- `postGestureClick`: forward untouched clicks; for post-slide clicks,
prevent default navigation on nested links, swallow (`stopPropagation`,
no forward) iff `noSlideClick`, and clear the flag. -/
def postGestureClick (p : Props) (insideLink : Bool) (s : TouchState) : TouchState × List Out :=
  if !s.didSlide then
    (s, if p.hasOnClickCapture then [Out.clickForward] else [])
  else
    let pd := if insideLink then [Out.preventDefault] else []
    if p.noSlideClick then
      ({ s with didSlide := false }, pd ++ [Out.stopProp])
    else
      ({ s with didSlide := false },
       pd ++ if p.hasOnClickCapture then [Out.clickForward] else [])

/-- An input signal delivered to the component's handlers. -/
inductive Sig where
  | start (e : InputEvent)
  | move (e : InputEvent)
  | fin (e : InputEvent)
  | click (insideLink : Bool)
  deriving Repr, DecidableEq

/-- One handler invocation. -/
def stepF (p : Props) (s : TouchState) : Sig → TouchState × List Out
  | Sig.start e => startHandler p e s
  | Sig.move e => onMove p e s
  | Sig.fin e => onEnd p e s
  | Sig.click l => postGestureClick p l s

/-- Run a sequence of signals, accumulating the dispatch trace. -/
def runF (p : Props) (s : TouchState) : List Sig → TouchState × List Out
  | [] => (s, [])
  | sig :: rest =>
    let r := stepF p s sig
    let r2 := runF p r.1 rest
    (r2.1, r.2 ++ r2.2)

/-- States reachable from the initial state (fresh refs) by handler runs. -/
inductive Reach (p : Props) : TouchState → Prop where
  | init : Reach p ⟨false, {}⟩
  | next {s : TouchState} (h : Reach p s) (sig : Sig) : Reach p (stepF p s sig).1

/-- The gesture callbacks of a trace, in dispatch order. -/
def cbKinds (outs : List Out) : List CbKind :=
  outs.filterMap fun o =>
    match o with
    | Out.cb k _ _ => some k
    | _ => none

/-- Invariant maintained by every handler on the component state. -/
def Inv (p : Props) (s : TouchState) : Prop :=
  (truthy s.gesture.isX = true → truthy s.gesture.isY = false)
  ∧ (truthy s.gesture.isSlideX = true →
      truthy s.gesture.isX = true ∧ (p.hasOnMoveX || p.hasOnMove) = true)
  ∧ (truthy s.gesture.isSlideY = true →
      truthy s.gesture.isY = true ∧ (p.hasOnMoveY || p.hasOnMove) = true)
  ∧ truthy s.gesture.isSlide = (truthy s.gesture.isSlideX || truthy s.gesture.isSlideY)
  ∧ (truthy s.gesture.isSlide = false →
      s.gesture.shiftX = none ∧ s.gesture.shiftY = none
      ∧ s.gesture.shiftXAbs = none ∧ s.gesture.shiftYAbs = none)
  ∧ (truthy s.gesture.isPressed = false → s.gesture = {})

/-- Concrete props for witnesses and counterexamples: generic start/move/end
callbacks, `onLeave` and `onClickCapture` registered, source defaults
otherwise. -/
def pEx : Props :=
  { hasOnStart := true, hasOnMove := true, hasOnEnd := true,
    hasOnLeave := true, hasOnClickCapture := true }

/-- A touch press at the origin. -/
def eS : InputEvent := { x := 0, y := 0, now := 0, touches := some 1, etype := "touchstart" }

/-- A touch move to `(10, 1)`: crosses the default threshold on X. -/
def eM : InputEvent := { x := 10, y := 1, now := 10, touches := some 1, etype := "touchmove" }

/-- The touch release ending the slide gesture. -/
def eE : InputEvent := { x := 10, y := 1, now := 20, touches := some 0, etype := "touchend" }

/-- A second, spurious `touchend` arriving while no gesture is pressed. -/
def eE2 : InputEvent := { x := 10, y := 1, now := 30, touches := some 0, etype := "touchend" }

/-- A second press, starting a tap gesture. -/
def eS2 : InputEvent := { x := 20, y := 20, now := 40, touches := some 1, etype := "touchstart" }

/-- The release of the tap gesture (no movement in between). -/
def eE3 : InputEvent := { x := 20, y := 20, now := 50, touches := some 0, etype := "touchend" }

/-- State after `eS`, `eM`: a pressed gesture locked on X with `isSlide`. -/
def sSlide : TouchState :=
  (stepF pEx (stepF pEx ⟨false, {}⟩ (Sig.start eS)).1 (Sig.move eM)).1

/-- State after the slide gesture of `eS`, `eM`, `eE` ended: idle with the
did-slide flag set. -/
def sIdleDid : TouchState :=
  (stepF pEx sSlide (Sig.fin eE)).1

/-- State right after the initial press `eS`. -/
def sStart : TouchState := (stepF pEx ⟨false, {}⟩ (Sig.start eS)).1

/-- A later move sample to `(3, 8)`: would lock Y were the axis still undecided. -/
def eM2 : InputEvent := { x := 3, y := 8, now := 15, touches := some 1, etype := "touchmove" }

/-- A small move to `(2, 2)`: below the default threshold on both axes. -/
def eSmall : InputEvent := { x := 2, y := 2, now := 5, touches := some 1, etype := "touchmove" }

/-- A move sample carrying two simultaneous touch points. -/
def eMulti : InputEvent := { x := 6, y := 6, now := 7, touches := some 2, etype := "touchmove" }

/-- Props that suppress post-slide clicks (`noSlideClick`). -/
def pNoClick : Props := { hasOnClickCapture := true, noSlideClick := true }

/-- An idle state whose did-slide flag is set. -/
def sDid : TouchState := { didSlide := true }

@[simp]
theorem truthy_none : truthy none = false := rfl

@[simp]
theorem truthy_some (b : Bool) : truthy (some b) = b := rfl

@[simp]
theorem truthy_eq_true_iff (o : Option Bool) : truthy o = true ↔ o = some true := by
  cases o <;> simp [truthy]

theorem willBeX_eq_true (p : Props) (e : InputEvent) (g : Gesture) :
    willBeX p e g = true ↔
      p.slideThreshold ≤ shiftXAbsOf e g ∧ shiftYAbsOf e g < shiftXAbsOf e g := by
  simp [willBeX]

theorem willBeY_eq_true (p : Props) (e : InputEvent) (g : Gesture) :
    willBeY p e g = true ↔
      p.slideThreshold ≤ shiftYAbsOf e g ∧ shiftXAbsOf e g < shiftYAbsOf e g := by
  simp [willBeY]

theorem willBe_mutex (p : Props) (e : InputEvent) (g : Gesture) :
    ¬(willBeX p e g = true ∧ willBeY p e g = true) := by
  rintro ⟨hx, hy⟩
  rw [willBeX_eq_true] at hx
  rw [willBeY_eq_true] at hy
  omega

theorem willBeX_congr (p : Props) (e : InputEvent) (g g' : Gesture)
    (hx : g'.startX = g.startX) (hy : g'.startY = g.startY) :
    willBeX p e g' = willBeX p e g := by
  simp [willBeX, shiftXAbsOf, shiftYAbsOf, hx, hy]

theorem willBeY_congr (p : Props) (e : InputEvent) (g g' : Gesture)
    (hx : g'.startX = g.startX) (hy : g'.startY = g.startY) :
    willBeY p e g' = willBeY p e g := by
  simp [willBeY, shiftXAbsOf, shiftYAbsOf, hx, hy]

theorem onMove_not_pressed {p : Props} {e : InputEvent} {s : TouchState}
    (hp : truthy s.gesture.isPressed = false) : onMove p e s = (s, []) := by
  simp [onMove, hp]

theorem onMove_multiTouch {p : Props} {e : InputEvent} {s : TouchState}
    (hp : truthy s.gesture.isPressed = true) (hmt : isMultiTouch e = true) :
    onMove p e s = onEnd p e s := by
  simp [onMove, hp, hmt]

theorem onMove_moveStep {p : Props} {e : InputEvent} {s : TouchState}
    (hp : truthy s.gesture.isPressed = true) (hmt : isMultiTouch e = false) :
    onMove p e s = moveStep p e s := by
  simp [onMove, hp, hmt]

theorem moveStep_unlocked {p : Props} {e : InputEvent} {s : TouchState}
    (hx : truthy s.gesture.isX = false) (hy : truthy s.gesture.isY = false) :
    moveStep p e s = moveFinish p e s (lockUpdate p e s.gesture) := by
  simp [moveStep, gDecided, hx, hy]

theorem moveStep_locked {p : Props} {e : InputEvent} {s : TouchState}
    (h : truthy s.gesture.isX = true ∨ truthy s.gesture.isY = true) :
    moveStep p e s = moveFinish p e s s.gesture := by
  rcases h with h | h <;> simp [moveStep, gDecided, h]

theorem moveFinish_slide {p : Props} {e : InputEvent} {s : TouchState} {g1 : Gesture}
    (hs : truthy g1.isSlide = true) :
    moveFinish p e s g1 =
      ({ s with gesture := recordShifts e g1 },
       handle (recordShifts e g1) e
         [(p.hasOnMove, CbKind.move),
          (truthy (recordShifts e g1).isSlideX && p.hasOnMoveX, CbKind.moveX),
          (truthy (recordShifts e g1).isSlideY && p.hasOnMoveY, CbKind.moveY)]) := by
  simp [moveFinish, hs]

theorem moveFinish_noSlide {p : Props} {e : InputEvent} {s : TouchState} {g1 : Gesture}
    (hs : truthy g1.isSlide = false) :
    moveFinish p e s g1 = ({ s with gesture := g1 }, []) := by
  simp [moveFinish, hs]

@[simp]
theorem recordShifts_flags (e : InputEvent) (g : Gesture) :
    (recordShifts e g).isPressed = g.isPressed ∧ (recordShifts e g).isX = g.isX
    ∧ (recordShifts e g).isY = g.isY ∧ (recordShifts e g).isSlideX = g.isSlideX
    ∧ (recordShifts e g).isSlideY = g.isSlideY ∧ (recordShifts e g).isSlide = g.isSlide
    ∧ (recordShifts e g).startX = g.startX ∧ (recordShifts e g).startY = g.startY
    ∧ (recordShifts e g).startT = g.startT := by
  simp [recordShifts]

@[simp]
theorem lockUpdate_aux (p : Props) (e : InputEvent) (g : Gesture) :
    (lockUpdate p e g).isPressed = g.isPressed
    ∧ (lockUpdate p e g).startX = g.startX ∧ (lockUpdate p e g).startY = g.startY
    ∧ (lockUpdate p e g).startT = g.startT
    ∧ (lockUpdate p e g).shiftX = g.shiftX ∧ (lockUpdate p e g).shiftY = g.shiftY
    ∧ (lockUpdate p e g).shiftXAbs = g.shiftXAbs ∧ (lockUpdate p e g).shiftYAbs = g.shiftYAbs := by
  simp [lockUpdate]

theorem inv_mk_empty (p : Props) (b : Bool) : Inv p ⟨b, {}⟩ := by
  simp [Inv]

theorem inv_start (p : Props) (e : InputEvent) (s : TouchState) :
    Inv p (startHandler p e s).1 := by
  simp [startHandler, freshGesture, Inv]

theorem inv_end (p : Props) (e : InputEvent) (s : TouchState) :
    Inv p (onEnd p e s).1 := by
  simpa [onEnd] using inv_mk_empty p _

theorem inv_click {p : Props} {l : Bool} {s : TouchState} (h : Inv p s) :
    Inv p (postGestureClick p l s).1 := by
  unfold postGestureClick
  split_ifs <;> exact h

theorem inv_unlocked_noSlide {p : Props} {s : TouchState} (h : Inv p s)
    (hx : truthy s.gesture.isX = false) (hy : truthy s.gesture.isY = false) :
    truthy s.gesture.isSlideX = false ∧ truthy s.gesture.isSlideY = false
    ∧ truthy s.gesture.isSlide = false := by
  obtain ⟨h1, h2, h3, h4, h5, h6⟩ := h
  have hsx : truthy s.gesture.isSlideX = false := by
    cases hv : truthy s.gesture.isSlideX
    · rfl
    · have hx' := (h2 hv).1
      rw [hx] at hx'
      exact absurd hx' (by simp)
  have hsy : truthy s.gesture.isSlideY = false := by
    cases hv : truthy s.gesture.isSlideY
    · rfl
    · have hy' := (h3 hv).1
      rw [hy] at hy'
      exact absurd hy' (by simp)
  refine ⟨hsx, hsy, ?_⟩
  rw [h4, hsx, hsy]
  rfl

theorem inv_lockUpdate {p : Props} {s : TouchState} (e : InputEvent) (h : Inv p s)
    (hx : truthy s.gesture.isX = false) (hy : truthy s.gesture.isY = false)
    (hp : truthy s.gesture.isPressed = true)
    (b : Bool) : Inv p ⟨b, lockUpdate p e s.gesture⟩ := by
  obtain ⟨hsx, hsy, hns⟩ := inv_unlocked_noSlide h hx hy
  obtain ⟨h1, h2, h3, h4, h5, h6⟩ := h
  have hsh := h5 hns
  refine ⟨?_, ?_, ?_, ?_, ?_, ?_⟩
  · intro hwx
    simp only [lockUpdate, truthy_some] at hwx ⊢
    cases hv : willBeY p e s.gesture
    · rfl
    · exact absurd ⟨hwx, hv⟩ (willBe_mutex p e s.gesture)
  · intro hwsx
    simp only [lockUpdate, truthy_some, willBeSlidedX, Bool.and_eq_true] at hwsx ⊢
    exact hwsx
  · intro hwsy
    simp only [lockUpdate, truthy_some, willBeSlidedY, Bool.and_eq_true] at hwsy ⊢
    exact hwsy
  · simp [lockUpdate]
  · intro _
    simp only [lockUpdate]
    exact hsh
  · intro hnp
    simp only [lockUpdate, TouchState.gesture] at hnp
    rw [hp] at hnp
    exact absurd hnp (by simp)

theorem inv_recordShifts {p : Props} {b : Bool} {g : Gesture} (e : InputEvent)
    (h : Inv p ⟨b, g⟩) (hs : truthy g.isSlide = true) (hp : truthy g.isPressed = true) :
    Inv p ⟨b, recordShifts e g⟩ := by
  obtain ⟨h1, h2, h3, h4, h5, h6⟩ := h
  refine ⟨?_, ?_, ?_, ?_, ?_, ?_⟩
  · simpa only [TouchState.gesture, recordShifts] using h1
  · simpa only [TouchState.gesture, recordShifts] using h2
  · simpa only [TouchState.gesture, recordShifts] using h3
  · simpa only [TouchState.gesture, recordShifts] using h4
  · intro hns
    simp only [TouchState.gesture, recordShifts] at hns
    rw [hs] at hns
    exact absurd hns (by simp)
  · intro hnp
    simp only [TouchState.gesture, recordShifts] at hnp
    rw [hp] at hnp
    exact absurd hnp (by simp)

theorem inv_moveFinish {p : Props} {e : InputEvent} {s : TouchState} {g1 : Gesture}
    (h : Inv p ⟨s.didSlide, g1⟩) (hp : truthy g1.isPressed = true) :
    Inv p (moveFinish p e s g1).1 := by
  by_cases hs : truthy g1.isSlide = true
  · rw [moveFinish_slide hs]
    exact inv_recordShifts e h hs hp
  · rw [moveFinish_noSlide (by simpa only [Bool.not_eq_true] using hs)]
    exact h

theorem inv_moveStep {p : Props} {e : InputEvent} {s : TouchState}
    (h : Inv p s) (hp : truthy s.gesture.isPressed = true) :
    Inv p (moveStep p e s).1 := by
  by_cases hx : truthy s.gesture.isX = true
  · rw [moveStep_locked (Or.inl hx)]
    exact inv_moveFinish h hp
  · by_cases hy : truthy s.gesture.isY = true
    · rw [moveStep_locked (Or.inr hy)]
      exact inv_moveFinish h hp
    · have hx' : truthy s.gesture.isX = false := by simpa only [Bool.not_eq_true] using hx
      have hy' : truthy s.gesture.isY = false := by simpa only [Bool.not_eq_true] using hy
      rw [moveStep_unlocked hx' hy']
      exact inv_moveFinish (inv_lockUpdate e h hx' hy' hp s.didSlide)
        (by simpa only [lockUpdate] using hp)

theorem inv_move {p : Props} {e : InputEvent} {s : TouchState}
    (h : Inv p s) : Inv p (onMove p e s).1 := by
  by_cases hp : truthy s.gesture.isPressed = true
  · by_cases hmt : isMultiTouch e = true
    · rw [onMove_multiTouch hp hmt]
      exact inv_end p e s
    · rw [onMove_moveStep hp (by simpa only [Bool.not_eq_true] using hmt)]
      exact inv_moveStep h hp
  · rw [onMove_not_pressed (by simpa only [Bool.not_eq_true] using hp)]
    exact h

theorem inv_step {p : Props} {s : TouchState} (h : Inv p s) (sig : Sig) :
    Inv p (stepF p s sig).1 := by
  cases sig with
  | start e => exact inv_start p e s
  | move e => exact inv_move h
  | fin e => exact inv_end p e s
  | click l => exact inv_click h

theorem reach_inv {p : Props} {s : TouchState} (h : Reach p s) : Inv p s := by
  induction h with
  | init => exact inv_mk_empty p false
  | next h sig ih => exact inv_step ih sig

theorem cbKinds_handle (g : Gesture) (e : InputEvent) (l : List (Bool × CbKind)) :
    cbKinds (handle g e l) = (l.filter fun c => c.1).map fun c => c.2 := by
  induction l with
  | nil => rfl
  | cons c cs ih =>
    cases hb : c.1 <;> simp [handle, cbKinds, List.filter_cons, hb] at ih ⊢ <;> exact ih

theorem cbKinds_handle_sublist (g : Gesture) (e : InputEvent) (l : List (Bool × CbKind)) :
    List.Sublist (cbKinds (handle g e l)) (l.map fun c => c.2) := by
  rw [cbKinds_handle]
  exact (List.filter_sublist l).map _

theorem cbKinds_append (o₁ o₂ : List Out) :
    cbKinds (o₁ ++ o₂) = cbKinds o₁ ++ cbKinds o₂ := by
  simp [cbKinds]

theorem cb_mem_handle {g : Gesture} {e : InputEvent} {l : List (Bool × CbKind)}
    {k : CbKind} {snap : Gesture} {d : Int} :
    Out.cb k snap d ∈ handle g e l ↔
      ((true, k) ∈ l ∧ snap = g ∧ d = e.now - g.startT.getD 0) := by
  simp only [handle, List.mem_map, List.mem_filter]
  constructor
  · rintro ⟨⟨b, k'⟩, ⟨hmem, hb⟩, heq⟩
    simp only [Out.cb.injEq] at heq
    obtain ⟨rfl, rfl, rfl⟩ := heq
    simp only at hb
    rw [hb] at hmem
    exact ⟨hmem, rfl, rfl⟩
  · rintro ⟨hmem, rfl, rfl⟩
    exact ⟨(true, k), ⟨hmem, rfl⟩, rfl⟩

theorem moveFinish_fields (p : Props) (e : InputEvent) (s : TouchState) (g1 : Gesture) :
    (moveFinish p e s g1).1.gesture.isX = g1.isX
    ∧ (moveFinish p e s g1).1.gesture.isY = g1.isY
    ∧ (moveFinish p e s g1).1.gesture.isSlideX = g1.isSlideX
    ∧ (moveFinish p e s g1).1.gesture.isSlideY = g1.isSlideY
    ∧ (moveFinish p e s g1).1.gesture.isSlide = g1.isSlide
    ∧ (moveFinish p e s g1).1.gesture.isPressed = g1.isPressed
    ∧ (moveFinish p e s g1).1.gesture.startX = g1.startX
    ∧ (moveFinish p e s g1).1.gesture.startY = g1.startY
    ∧ (moveFinish p e s g1).1.didSlide = s.didSlide := by
  by_cases hs : truthy g1.isSlide = true
  · rw [moveFinish_slide hs]
    simp [recordShifts]
  · rw [moveFinish_noSlide (by simpa only [Bool.not_eq_true] using hs)]
    simp

theorem moveStep_below {p : Props} {e : InputEvent} {s : TouchState}
    (hp : truthy s.gesture.isPressed = true) (hmt : isMultiTouch e = false)
    (hx : truthy s.gesture.isX = false) (hy : truthy s.gesture.isY = false)
    (hwx : willBeX p e s.gesture = false) (hwy : willBeY p e s.gesture = false) :
    onMove p e s = ({ s with gesture := lockUpdate p e s.gesture }, []) := by
  rw [onMove_moveStep hp hmt, moveStep_unlocked hx hy, moveFinish_noSlide]
  simp [lockUpdate, willBeSlidedX, willBeSlidedY, hwx, hwy]

theorem cbKinds_onEnd (p : Props) (e : InputEvent) (s : TouchState) :
    cbKinds (onEnd p e s).2 =
      if truthy s.gesture.isPressed then
        (List.filter (fun c => c.1)
          [(p.hasOnEnd, CbKind.endG),
           (truthy s.gesture.isSlideY && p.hasOnEndY, CbKind.endY),
           (truthy s.gesture.isSlideX && p.hasOnEndX, CbKind.endX)]).map fun c => c.2
      else [] := by
  simp only [onEnd]
  rw [cbKinds_append]
  have h2 : cbKinds (if (e.etype = "touchend" ∨ e.etype = "touchcancel")
      ∧ p.hasOnLeave = true then [Out.leave] else []) = [] := by
    split <;> rfl
  rw [h2, List.append_nil]
  by_cases hp : truthy s.gesture.isPressed = true
  · rw [if_pos hp, if_pos hp, cbKinds_handle]
  · rw [if_neg (by simp [hp]), if_neg (by simp [hp])]
    rfl

theorem sublist_end_kinds (a b c : Bool) (hbc : ¬(b = true ∧ c = true)) :
    List.Sublist
      ((List.filter (fun c => c.1)
        [(a, CbKind.endG), (b, CbKind.endY), (c, CbKind.endX)]).map fun c => c.2)
      [CbKind.endG, CbKind.endX, CbKind.endY] := by
  cases a <;> cases b <;> cases c <;>
    first
    | decide
    | exact absurd ⟨rfl, rfl⟩ hbc

theorem onEnd_kinds_sublist {p : Props} {s : TouchState} (e : InputEvent)
    (hmux : ¬(truthy s.gesture.isSlideX = true ∧ truthy s.gesture.isSlideY = true)) :
    List.Sublist (cbKinds (onEnd p e s).2) [CbKind.endG, CbKind.endX, CbKind.endY] := by
  rw [cbKinds_onEnd]
  by_cases hp : truthy s.gesture.isPressed = true
  · rw [if_pos hp]
    refine sublist_end_kinds _ _ _ ?_
    rintro ⟨hb, hc⟩
    rw [Bool.and_eq_true] at hb hc
    exact hmux ⟨hc.1, hb.1⟩
  · rw [if_neg (by simp [hp])]
    exact List.nil_sublist _

theorem inv_slide_mutex {p : Props} {s : TouchState} (h : Inv p s) :
    ¬(truthy s.gesture.isSlideX = true ∧ truthy s.gesture.isSlideY = true) := by
  obtain ⟨h1, h2, h3, -, -, -⟩ := h
  rintro ⟨ha, hb⟩
  have hy := (h3 hb).1
  rw [h1 (h2 ha).1] at hy
  exact absurd hy (by simp)

theorem onEnd_outs_pressed {p : Props} {e : InputEvent} {s : TouchState}
    (hp : truthy s.gesture.isPressed = true) :
    (onEnd p e s).2 =
      handle s.gesture e
        [(p.hasOnEnd, CbKind.endG),
         (truthy s.gesture.isSlideY && p.hasOnEndY, CbKind.endY),
         (truthy s.gesture.isSlideX && p.hasOnEndX, CbKind.endX)]
      ++ (if (e.etype = "touchend" ∨ e.etype = "touchcancel") ∧ p.hasOnLeave = true
          then [Out.leave] else []) := by
  simp only [onEnd, if_pos hp]

theorem onEnd_outs_idle {p : Props} {e : InputEvent} {s : TouchState}
    (hp : truthy s.gesture.isPressed = false) :
    (onEnd p e s).2 =
      (if (e.etype = "touchend" ∨ e.etype = "touchcancel") ∧ p.hasOnLeave = true
       then [Out.leave] else []) := by
  simp only [onEnd, if_neg (by simp [hp] : ¬truthy s.gesture.isPressed = true),
    List.nil_append]

theorem cb_mem_onEnd {p : Props} {e : InputEvent} {s : TouchState}
    {k : CbKind} {snap : Gesture} {d : Int}
    (h : Out.cb k snap d ∈ (onEnd p e s).2) :
    truthy s.gesture.isPressed = true ∧ snap = s.gesture
    ∧ d = e.now - s.gesture.startT.getD 0
    ∧ (true, k) ∈
        [(p.hasOnEnd, CbKind.endG),
         (truthy s.gesture.isSlideY && p.hasOnEndY, CbKind.endY),
         (truthy s.gesture.isSlideX && p.hasOnEndX, CbKind.endX)] := by
  by_cases hp : truthy s.gesture.isPressed = true
  · rw [onEnd_outs_pressed hp] at h
    rcases List.mem_append.1 h with h | h
    · obtain ⟨hin, hsnap, hd⟩ := cb_mem_handle.1 h
      exact ⟨hp, hsnap, hd, hin⟩
    · split at h <;> simp at h
  · rw [onEnd_outs_idle (by simpa only [Bool.not_eq_true] using hp)] at h
    split at h <;> simp at h

theorem cb_mem_moveStep {p : Props} {e : InputEvent} {s : TouchState}
    {k : CbKind} {snap : Gesture} {d : Int}
    (h : Out.cb k snap d ∈ (moveStep p e s).2) :
    (moveStep p e s).1 = { s with gesture := recordShifts e (gDecided p e s.gesture) }
    ∧ truthy (gDecided p e s.gesture).isSlide = true
    ∧ snap = recordShifts e (gDecided p e s.gesture)
    ∧ (true, k) ∈
        [(p.hasOnMove, CbKind.move),
         (truthy (recordShifts e (gDecided p e s.gesture)).isSlideX && p.hasOnMoveX,
           CbKind.moveX),
         (truthy (recordShifts e (gDecided p e s.gesture)).isSlideY && p.hasOnMoveY,
           CbKind.moveY)] := by
  by_cases hs : truthy (gDecided p e s.gesture).isSlide = true
  · have hrw : moveStep p e s =
        ({ s with gesture := recordShifts e (gDecided p e s.gesture) },
         handle (recordShifts e (gDecided p e s.gesture)) e
           [(p.hasOnMove, CbKind.move),
            (truthy (recordShifts e (gDecided p e s.gesture)).isSlideX && p.hasOnMoveX,
              CbKind.moveX),
            (truthy (recordShifts e (gDecided p e s.gesture)).isSlideY && p.hasOnMoveY,
              CbKind.moveY)]) := by
      rw [moveStep, moveFinish_slide hs]
    rw [hrw] at h
    obtain ⟨hin, hsnap, -⟩ := cb_mem_handle.1 h
    rw [hrw]
    exact ⟨rfl, hs, hsnap, hin⟩
  · have hrw : moveStep p e s = ({ s with gesture := gDecided p e s.gesture }, []) := by
      rw [moveStep, moveFinish_noSlide (by simpa only [Bool.not_eq_true] using hs)]
    rw [hrw] at h
    exact absurd h (List.not_mem_nil _)

theorem moveFinish_kinds_sublist (p : Props) (e : InputEvent) (s : TouchState) (g1 : Gesture) :
    List.Sublist (cbKinds (moveFinish p e s g1).2) [CbKind.move, CbKind.moveX, CbKind.moveY] := by
  by_cases hs : truthy g1.isSlide = true
  · rw [moveFinish_slide hs]
    simpa using cbKinds_handle_sublist (recordShifts e g1) e
      [(p.hasOnMove, CbKind.move),
       (truthy (recordShifts e g1).isSlideX && p.hasOnMoveX, CbKind.moveX),
       (truthy (recordShifts e g1).isSlideY && p.hasOnMoveY, CbKind.moveY)]
  · rw [moveFinish_noSlide (by simpa only [Bool.not_eq_true] using hs)]
    exact List.nil_sublist _

/-- C1: during a pressed, non-multi-touch move sample, the axis lock is
decided at most once: while the gesture is unlocked, `isX`/`isY` after the
sample are exactly `willBeX`/`willBeY` (absolute displacement at least
`slideThreshold` and strictly above the other axis), so a tied sample locks
neither axis and the decision is re-evaluated at the next sample; once one
axis is locked, neither lock field changes for the rest of the gesture. -/
theorem axis_lock_decided_once (p : Props) (e : InputEvent) (s : TouchState)
    (hp : truthy s.gesture.isPressed = true) (hmt : isMultiTouch e = false) :
    ((truthy s.gesture.isX = true ∨ truthy s.gesture.isY = true) →
      (onMove p e s).1.gesture.isX = s.gesture.isX
      ∧ (onMove p e s).1.gesture.isY = s.gesture.isY)
    ∧ (truthy s.gesture.isX = false → truthy s.gesture.isY = false →
      truthy (onMove p e s).1.gesture.isX = willBeX p e s.gesture
      ∧ truthy (onMove p e s).1.gesture.isY = willBeY p e s.gesture)
    ∧ (shiftXAbsOf e s.gesture = shiftYAbsOf e s.gesture →
      truthy (onMove p e s).1.gesture.isX = truthy s.gesture.isX
      ∧ truthy (onMove p e s).1.gesture.isY = truthy s.gesture.isY) := by
  rw [onMove_moveStep hp hmt]
  refine ⟨?_, ?_, ?_⟩
  · intro h
    rw [moveStep_locked h]
    obtain ⟨f1, f2, _⟩ := moveFinish_fields p e s s.gesture
    exact ⟨f1, f2⟩
  · intro hx hy
    rw [moveStep_unlocked hx hy]
    obtain ⟨f1, f2, _⟩ := moveFinish_fields p e s (lockUpdate p e s.gesture)
    rw [f1, f2]
    simp [lockUpdate]
  · intro htie
    have hwx : willBeX p e s.gesture = false := by
      rw [← Bool.not_eq_true, willBeX_eq_true, htie]
      rintro ⟨-, hlt⟩
      exact lt_irrefl _ hlt
    have hwy : willBeY p e s.gesture = false := by
      rw [← Bool.not_eq_true, willBeY_eq_true, htie]
      rintro ⟨-, hlt⟩
      exact lt_irrefl _ hlt
    by_cases hx : truthy s.gesture.isX = true
    · rw [moveStep_locked (Or.inl hx)]
      obtain ⟨f1, f2, _⟩ := moveFinish_fields p e s s.gesture
      rw [f1, f2]
      exact ⟨rfl, rfl⟩
    · by_cases hy : truthy s.gesture.isY = true
      · rw [moveStep_locked (Or.inr hy)]
        obtain ⟨f1, f2, _⟩ := moveFinish_fields p e s s.gesture
        rw [f1, f2]
        exact ⟨rfl, rfl⟩
      · have hx' : truthy s.gesture.isX = false := by
          simpa only [Bool.not_eq_true] using hx
        have hy' : truthy s.gesture.isY = false := by
          simpa only [Bool.not_eq_true] using hy
        rw [moveStep_unlocked hx' hy']
        obtain ⟨f1, f2, _⟩ := moveFinish_fields p e s (lockUpdate p e s.gesture)
        rw [f1, f2, hx', hy']
        simp [lockUpdate, hwx, hwy]

/-- Witness for C1: the gesture locked on X by `eS`, `eM` keeps its lock
through the later sample `eM2` even though `eM2` favours Y. -/
theorem axis_lock_decided_once_witness :
    (onMove pEx eM2 sSlide).1.gesture.isX = sSlide.gesture.isX
    ∧ (onMove pEx eM2 sSlide).1.gesture.isY = sSlide.gesture.isY :=
  (axis_lock_decided_once pEx eM2 sSlide (by decide) (by decide)).1 (Or.inl (by decide))

/-- C2: on every reachable state, each handler's dispatched callback sequence
is a subsequence of the fixed order generic-then-X-then-Y for its phase
(for a multi-touch move sample the dispatch is an end dispatch). -/
theorem callbacks_fixed_order (p : Props) (s : TouchState) (e : InputEvent)
    (hr : Reach p s) :
    List.Sublist (cbKinds (startHandler p e s).2)
      [CbKind.start, CbKind.startX, CbKind.startY]
    ∧ (isMultiTouch e = false →
        List.Sublist (cbKinds (onMove p e s).2) [CbKind.move, CbKind.moveX, CbKind.moveY])
    ∧ (isMultiTouch e = true →
        List.Sublist (cbKinds (onMove p e s).2) [CbKind.endG, CbKind.endX, CbKind.endY])
    ∧ List.Sublist (cbKinds (onEnd p e s).2) [CbKind.endG, CbKind.endX, CbKind.endY] := by
  have hmux := inv_slide_mutex (reach_inv hr)
  refine ⟨?_, ?_, ?_, ?_⟩
  · simpa [startHandler] using cbKinds_handle_sublist (freshGesture e) e
      [(p.hasOnStart, CbKind.start), (p.hasOnStartX, CbKind.startX),
       (p.hasOnStartY, CbKind.startY)]
  · intro hmt
    by_cases hp : truthy s.gesture.isPressed = true
    · rw [onMove_moveStep hp hmt]
      simp only [moveStep]
      exact moveFinish_kinds_sublist p e s _
    · rw [onMove_not_pressed (by simpa only [Bool.not_eq_true] using hp)]
      exact List.nil_sublist _
  · intro hmt
    by_cases hp : truthy s.gesture.isPressed = true
    · rw [onMove_multiTouch hp hmt]
      exact onEnd_kinds_sublist e hmux
    · rw [onMove_not_pressed (by simpa only [Bool.not_eq_true] using hp)]
      exact List.nil_sublist _
  · exact onEnd_kinds_sublist e hmux

/-- Witness for C2 at the reachable locked-X slide state. -/
theorem callbacks_fixed_order_witness :
    List.Sublist (cbKinds (onEnd pEx eE sSlide).2) [CbKind.endG, CbKind.endX, CbKind.endY] :=
  (callbacks_fixed_order pEx sSlide eE
    (Reach.next (Reach.next Reach.init (Sig.start eS)) (Sig.move eM))).2.2.2

/-- Counterexample to C3: in the reachable idle state after a slide gesture
(`isPressed` falsy, did-slide flag set), a further `touchend` signal is not a
no-op: it dispatches the `onLeave` callback and flips the did-slide flag from
`true` to `false`. -/
theorem end_signal_no_press_cex :
    truthy sIdleDid.gesture.isPressed = false
    ∧ sIdleDid.didSlide = true
    ∧ (onEnd pEx eE2 sIdleDid).1.didSlide = false
    ∧ (onEnd pEx eE2 sIdleDid).2 = [Out.leave] := by decide

/-- C3 (amended): while no gesture is pressed, a move signal is a complete
no-op, and an end/cancel signal dispatches no gesture callback but still
unconditionally overwrites the did-slide flag with the (falsy) `isSlide` of
the current gesture record, resets the gesture record, and still synthesizes
`onLeave` for a `touchend`/`touchcancel` event. -/
theorem no_press_handlers (p : Props) (e : InputEvent) (s : TouchState)
    (hp : truthy s.gesture.isPressed = false) :
    onMove p e s = (s, [])
    ∧ (onEnd p e s).1 = ⟨truthy s.gesture.isSlide, {}⟩
    ∧ cbKinds (onEnd p e s).2 = []
    ∧ (onEnd p e s).2 =
        (if (e.etype = "touchend" ∨ e.etype = "touchcancel") ∧ p.hasOnLeave = true
         then [Out.leave] else []) := by
  refine ⟨onMove_not_pressed hp, rfl, ?_, ?_⟩
  · rw [cbKinds_onEnd, if_neg (by simp [hp])]
  · simp only [onEnd]
    rw [if_neg (by simp [hp]), List.nil_append]

/-- Witness for C3 (amended) at the idle post-slide state. -/
theorem no_press_handlers_witness :
    onMove pEx eE2 sIdleDid = (sIdleDid, [])
    ∧ (onEnd pEx eE2 sIdleDid).1 = ⟨truthy sIdleDid.gesture.isSlide, {}⟩ :=
  ⟨(no_press_handlers pEx eE2 sIdleDid (by decide)).1,
   (no_press_handlers pEx eE2 sIdleDid (by decide)).2.1⟩

/-- Counterexample to C4: a slide gesture (`eS`, `eM`, `eE`) sets the flag,
but a following tap gesture (`eS2`, `eE3`) clears it with no intervening
click — so the flag does not stay set until the next click, and clicks are
not the only clearing operation. -/
theorem didSlide_cleared_without_click_cex :
    (runF pEx ⟨false, {}⟩ [Sig.start eS, Sig.move eM, Sig.fin eE]).1.didSlide = true
    ∧ (runF pEx ⟨false, {}⟩
        [Sig.start eS, Sig.move eM, Sig.fin eE, Sig.start eS2, Sig.fin eE3]).1.didSlide
        = false := by decide

/-- C4 (amended): the did-slide flag is changed only by end/cancel signals
(including the multi-touch abort inside a pressed move), which overwrite it
with the current gesture's `isSlide` truthiness, and by click events, after
which it is always clear; start signals and all other move signals leave it
unchanged.  Hence after a slide-producing gesture ends the flag stays set
until the next click or the next end/cancel signal, whichever comes first. -/
theorem didSlide_lifecycle (p : Props) (s : TouchState) (sig : Sig) :
    (stepF p s sig).1.didSlide =
      match sig with
      | Sig.start _ => s.didSlide
      | Sig.move e =>
          if truthy s.gesture.isPressed && isMultiTouch e then truthy s.gesture.isSlide
          else s.didSlide
      | Sig.fin _ => truthy s.gesture.isSlide
      | Sig.click _ => false := by
  cases sig with
  | start e => rfl
  | move e =>
    show (onMove p e s).1.didSlide =
      if truthy s.gesture.isPressed && isMultiTouch e then truthy s.gesture.isSlide
      else s.didSlide
    by_cases hp : truthy s.gesture.isPressed = true
    · by_cases hmt : isMultiTouch e = true
      · rw [onMove_multiTouch hp hmt, hp, hmt]
        simp [onEnd]
      · have hmt' : isMultiTouch e = false := by simpa only [Bool.not_eq_true] using hmt
        rw [onMove_moveStep hp hmt', hmt']
        simp only [Bool.and_false, Bool.false_eq_true, if_false, moveStep]
        obtain ⟨-, -, -, -, -, -, -, -, f9⟩ := moveFinish_fields p e s (gDecided p e s.gesture)
        exact f9
    · have hp' : truthy s.gesture.isPressed = false := by
        simpa only [Bool.not_eq_true] using hp
      rw [onMove_not_pressed hp', hp']
      simp
  | fin e => rfl
  | click l =>
    show (postGestureClick p l s).1.didSlide = false
    unfold postGestureClick
    by_cases hd : s.didSlide = true
    · rw [if_neg (by simp [hd])]
      split <;> split <;> rfl
    · have hd' : s.didSlide = false := by simpa using hd
      rw [if_pos (by simp [hd'])]
      exact hd'

/-- C5: a click with the did-slide flag unset is forwarded unmodified with
the state untouched; a click with the flag set prevents default exactly when
the target is nested in a link, is swallowed (propagation stopped, not
forwarded) exactly when `noSlideClick`, is forwarded otherwise, and always
leaves the flag cleared. -/
theorem click_gate (p : Props) (link : Bool) (s : TouchState) :
    (s.didSlide = false →
      (postGestureClick p link s).1 = s
      ∧ (postGestureClick p link s).2 =
          (if p.hasOnClickCapture then [Out.clickForward] else []))
    ∧ (s.didSlide = true →
      (postGestureClick p link s).1.didSlide = false
      ∧ (postGestureClick p link s).1.gesture = s.gesture
      ∧ (Out.preventDefault ∈ (postGestureClick p link s).2 ↔ link = true)
      ∧ (p.noSlideClick = true →
          Out.stopProp ∈ (postGestureClick p link s).2
          ∧ Out.clickForward ∉ (postGestureClick p link s).2)
      ∧ (p.noSlideClick = false →
          Out.stopProp ∉ (postGestureClick p link s).2
          ∧ (Out.clickForward ∈ (postGestureClick p link s).2 ↔
              p.hasOnClickCapture = true))) := by
  constructor
  · intro hd
    rw [postGestureClick, if_pos (by simp [hd])]
    exact ⟨rfl, rfl⟩
  · intro hd
    rw [postGestureClick, if_neg (by simp [hd])]
    by_cases hn : p.noSlideClick = true
    · rw [if_pos hn]
      refine ⟨rfl, rfl, ?_, fun _ => ?_, fun hn' => absurd hn (by simp [hn'])⟩
      · cases link <;> simp
      · cases link <;> simp
    · have hn' : p.noSlideClick = false := by simpa using hn
      rw [if_neg hn]
      refine ⟨rfl, rfl, ?_, fun hc => absurd hc hn, fun _ => ?_⟩
      · cases link <;> cases p.hasOnClickCapture <;> simp
      · cases link <;> cases p.hasOnClickCapture <;> simp

/-- Witness for C5: a post-slide click on a nested link with `noSlideClick`
prevents default, stops propagation, is not forwarded, and clears the flag. -/
theorem click_gate_witness :
    (postGestureClick pNoClick true sDid).1.didSlide = false
    ∧ Out.preventDefault ∈ (postGestureClick pNoClick true sDid).2
    ∧ Out.stopProp ∈ (postGestureClick pNoClick true sDid).2
    ∧ Out.clickForward ∉ (postGestureClick pNoClick true sDid).2 := by
  have h := (click_gate pNoClick true sDid).2 (by decide)
  exact ⟨h.1, h.2.2.1.2 rfl, (h.2.2.2.1 (by decide)).1, (h.2.2.2.1 (by decide)).2⟩

/-- C6: at every reachable state, an axis is slide-flagged only if it is the
locked axis and the matching axis-specific or generic move callback was
registered; and the axis-specific move/end callbacks fire only for a
slide-flagged axis. -/
theorem slide_requires_registration (p : Props) (s : TouchState) (e : InputEvent)
    (snap : Gesture) (d : Int) (hr : Reach p s) :
    (truthy s.gesture.isSlideX = true →
      truthy s.gesture.isX = true ∧ (p.hasOnMoveX || p.hasOnMove) = true)
    ∧ (truthy s.gesture.isSlideY = true →
      truthy s.gesture.isY = true ∧ (p.hasOnMoveY || p.hasOnMove) = true)
    ∧ (Out.cb CbKind.moveX snap d ∈ (onMove p e s).2 →
        truthy (onMove p e s).1.gesture.isSlideX = true)
    ∧ (Out.cb CbKind.moveY snap d ∈ (onMove p e s).2 →
        truthy (onMove p e s).1.gesture.isSlideY = true)
    ∧ (Out.cb CbKind.endX snap d ∈ (onEnd p e s).2 → truthy s.gesture.isSlideX = true)
    ∧ (Out.cb CbKind.endY snap d ∈ (onEnd p e s).2 → truthy s.gesture.isSlideY = true) := by
  obtain ⟨h1, h2, h3, -, -, -⟩ := reach_inv hr
  have hendX : Out.cb CbKind.endX snap d ∈ (onEnd p e s).2 →
      truthy s.gesture.isSlideX = true := by
    intro hmem
    obtain ⟨-, -, -, hin⟩ := cb_mem_onEnd hmem
    simp only [List.mem_cons, List.not_mem_nil, or_false, Prod.mk.injEq] at hin
    rcases hin with ⟨-, h⟩ | ⟨-, h⟩ | ⟨hb, -⟩
    · exact absurd h (by decide)
    · exact absurd h (by decide)
    · have hb' := hb.symm
      rw [Bool.and_eq_true] at hb'
      exact hb'.1
  have hendY : Out.cb CbKind.endY snap d ∈ (onEnd p e s).2 →
      truthy s.gesture.isSlideY = true := by
    intro hmem
    obtain ⟨-, -, -, hin⟩ := cb_mem_onEnd hmem
    simp only [List.mem_cons, List.not_mem_nil, or_false, Prod.mk.injEq] at hin
    rcases hin with ⟨-, h⟩ | ⟨hb, -⟩ | ⟨-, h⟩
    · exact absurd h (by decide)
    · have hb' := hb.symm
      rw [Bool.and_eq_true] at hb'
      exact hb'.1
    · exact absurd h (by decide)
  refine ⟨h2, h3, ?_, ?_, hendX, hendY⟩
  · intro hmem
    by_cases hp : truthy s.gesture.isPressed = true
    · by_cases hmt : isMultiTouch e = true
      · rw [onMove_multiTouch hp hmt] at hmem
        obtain ⟨-, -, -, hin⟩ := cb_mem_onEnd hmem
        simp only [List.mem_cons, List.not_mem_nil, or_false, Prod.mk.injEq] at hin
        rcases hin with ⟨-, h⟩ | ⟨-, h⟩ | ⟨-, h⟩ <;> exact absurd h (by decide)
      · have hmt' : isMultiTouch e = false := by simpa only [Bool.not_eq_true] using hmt
        rw [onMove_moveStep hp hmt'] at hmem ⊢
        obtain ⟨hst, -, -, hin⟩ := cb_mem_moveStep hmem
        rw [hst]
        simp only [List.mem_cons, List.not_mem_nil, or_false, Prod.mk.injEq] at hin
        rcases hin with ⟨-, h⟩ | ⟨hb, -⟩ | ⟨-, h⟩
        · exact absurd h (by decide)
        · have hb' := hb.symm
          rw [Bool.and_eq_true] at hb'
          exact hb'.1
        · exact absurd h (by decide)
    · rw [onMove_not_pressed (by simpa only [Bool.not_eq_true] using hp)] at hmem
      exact absurd hmem (List.not_mem_nil _)
  · intro hmem
    by_cases hp : truthy s.gesture.isPressed = true
    · by_cases hmt : isMultiTouch e = true
      · rw [onMove_multiTouch hp hmt] at hmem
        obtain ⟨-, -, -, hin⟩ := cb_mem_onEnd hmem
        simp only [List.mem_cons, List.not_mem_nil, or_false, Prod.mk.injEq] at hin
        rcases hin with ⟨-, h⟩ | ⟨-, h⟩ | ⟨-, h⟩ <;> exact absurd h (by decide)
      · have hmt' : isMultiTouch e = false := by simpa only [Bool.not_eq_true] using hmt
        rw [onMove_moveStep hp hmt'] at hmem ⊢
        obtain ⟨hst, -, -, hin⟩ := cb_mem_moveStep hmem
        rw [hst]
        simp only [List.mem_cons, List.not_mem_nil, or_false, Prod.mk.injEq] at hin
        rcases hin with ⟨-, h⟩ | ⟨-, h⟩ | ⟨hb, -⟩
        · exact absurd h (by decide)
        · exact absurd h (by decide)
        · have hb' := hb.symm
          rw [Bool.and_eq_true] at hb'
          exact hb'.1
    · rw [onMove_not_pressed (by simpa only [Bool.not_eq_true] using hp)] at hmem
      exact absurd hmem (List.not_mem_nil _)

/-- Witness for C6 at the reachable locked-X slide state. -/
theorem slide_requires_registration_witness :
    truthy sSlide.gesture.isX = true ∧ (pEx.hasOnMoveX || pEx.hasOnMove) = true :=
  (slide_requires_registration pEx sSlide eM2 sSlide.gesture 0
    (Reach.next (Reach.next Reach.init (Sig.start eS)) (Sig.move eM))).1 (by decide)

theorem gDecided_starts (p : Props) (e : InputEvent) (g : Gesture) :
    (gDecided p e g).startX = g.startX ∧ (gDecided p e g).startY = g.startY
    ∧ (gDecided p e g).startT = g.startT ∧ (gDecided p e g).isPressed = g.isPressed := by
  unfold gDecided
  split <;> simp [lockUpdate]

theorem runF_moves_below (p : Props) (es : List InputEvent) :
    ∀ s : TouchState, truthy s.gesture.isPressed = true →
      truthy s.gesture.isX = false → truthy s.gesture.isY = false →
      (∀ e ∈ es, isMultiTouch e = false
        ∧ willBeX p e s.gesture = false ∧ willBeY p e s.gesture = false) →
      truthy (runF p s (es.map Sig.move)).1.gesture.isX = false
      ∧ truthy (runF p s (es.map Sig.move)).1.gesture.isY = false
      ∧ (runF p s (es.map Sig.move)).2 = [] := by
  induction es with
  | nil =>
    intro s _ hx hy _
    exact ⟨hx, hy, rfl⟩
  | cons e rest ih =>
    intro s hp hx hy hall
    obtain ⟨hmt, hwx, hwy⟩ := hall e (List.mem_cons_self e rest)
    have hstep := moveStep_below hp hmt hx hy hwx hwy
    have hrun : runF p s ((e :: rest).map Sig.move)
        = ((runF p ({ s with gesture := lockUpdate p e s.gesture }) (rest.map Sig.move)).1,
           [] ++ (runF p ({ s with gesture := lockUpdate p e s.gesture })
             (rest.map Sig.move)).2) := by
      simp only [List.map_cons, runF, stepF, hstep]
    rw [hrun, List.nil_append]
    have hp' : truthy ({ s with gesture := lockUpdate p e s.gesture }
        : TouchState).gesture.isPressed = true := by
      simpa only [lockUpdate] using hp
    have hx' : truthy ({ s with gesture := lockUpdate p e s.gesture }
        : TouchState).gesture.isX = false := by
      simp [lockUpdate, hwx]
    have hy' : truthy ({ s with gesture := lockUpdate p e s.gesture }
        : TouchState).gesture.isY = false := by
      simp [lockUpdate, hwy]
    have hall' : ∀ e' ∈ rest, isMultiTouch e' = false
        ∧ willBeX p e' ({ s with gesture := lockUpdate p e s.gesture }
            : TouchState).gesture = false
        ∧ willBeY p e' ({ s with gesture := lockUpdate p e s.gesture }
            : TouchState).gesture = false := by
      intro e' he'
      obtain ⟨a, b, c⟩ := hall e' (List.mem_cons_of_mem _ he')
      refine ⟨a, ?_, ?_⟩
      · show willBeX p e' (lockUpdate p e s.gesture) = false
        rw [willBeX_congr p e' s.gesture (lockUpdate p e s.gesture)
          (by simp [lockUpdate]) (by simp [lockUpdate])]
        exact b
      · show willBeY p e' (lockUpdate p e s.gesture) = false
        rw [willBeY_congr p e' s.gesture (lockUpdate p e s.gesture)
          (by simp [lockUpdate]) (by simp [lockUpdate])]
        exact c
    exact ih _ hp' hx' hy' hall'

/-- C7: a pressed, still unlocked gesture stays unlocked across any sequence
of move samples none of which meets the axis-lock condition, and those
samples dispatch nothing at all. -/
theorem below_threshold_silent (p : Props) (s : TouchState) (es : List InputEvent)
    (hp : truthy s.gesture.isPressed = true)
    (hx : truthy s.gesture.isX = false) (hy : truthy s.gesture.isY = false)
    (hall : ∀ e ∈ es, isMultiTouch e = false
      ∧ willBeX p e s.gesture = false ∧ willBeY p e s.gesture = false) :
    truthy (runF p s (es.map Sig.move)).1.gesture.isX = false
    ∧ truthy (runF p s (es.map Sig.move)).1.gesture.isY = false
    ∧ (runF p s (es.map Sig.move)).2 = [] :=
  runF_moves_below p es s hp hx hy hall

/-- Witness for C7: a below-threshold move right after a press. -/
theorem below_threshold_silent_witness :
    truthy (runF pEx sStart ([eSmall].map Sig.move)).1.gesture.isX = false
    ∧ truthy (runF pEx sStart ([eSmall].map Sig.move)).1.gesture.isY = false
    ∧ (runF pEx sStart ([eSmall].map Sig.move)).2 = [] :=
  below_threshold_silent pEx sStart [eSmall] (by decide) (by decide) (by decide) (by decide)

/-- C8: a move sample with more than one touch point during a pressed gesture
behaves exactly as the end handler: end callbacks receive the gesture state
as it was before the sample (no displacement is recorded from it), the
did-slide flag receives the gesture's `isSlide`, and the gesture is cleared. -/
theorem multitouch_aborts (p : Props) (s : TouchState) (e : InputEvent)
    (k : CbKind) (snap : Gesture) (d : Int)
    (hp : truthy s.gesture.isPressed = true) (hmt : isMultiTouch e = true) :
    onMove p e s = onEnd p e s
    ∧ (Out.cb k snap d ∈ (onMove p e s).2 → snap = s.gesture)
    ∧ (onMove p e s).1.gesture = {}
    ∧ (onMove p e s).1.didSlide = truthy s.gesture.isSlide
    ∧ (p.hasOnEnd = true →
        Out.cb CbKind.endG s.gesture (e.now - s.gesture.startT.getD 0)
          ∈ (onMove p e s).2) := by
  have h0 : onMove p e s = onEnd p e s := onMove_multiTouch hp hmt
  refine ⟨h0, ?_, ?_, ?_, ?_⟩
  · intro hmem
    rw [h0] at hmem
    exact (cb_mem_onEnd hmem).2.1
  · rw [h0]
    rfl
  · rw [h0]
    rfl
  · intro hOE
    rw [h0, onEnd_outs_pressed hp]
    refine List.mem_append_left _ ?_
    rw [cb_mem_handle]
    exact ⟨by simp [hOE], rfl, rfl⟩

/-- Witness for C8: a two-finger sample aborting the in-flight slide. -/
theorem multitouch_aborts_witness :
    onMove pEx eMulti sSlide = onEnd pEx eMulti sSlide
    ∧ (onMove pEx eMulti sSlide).1.gesture = {} :=
  ⟨(multitouch_aborts pEx sSlide eMulti CbKind.endG sSlide.gesture 0
      (by decide) (by decide)).1,
   (multitouch_aborts pEx sSlide eMulti CbKind.endG sSlide.gesture 0
      (by decide) (by decide)).2.2.1⟩

/-- C9: a start signal during a pressed gesture silently discards it: the
gesture record is overwritten with a fresh start state, only start callbacks
fire (receiving the new gesture, with duration 0), no end callback fires and
the did-slide flag is untouched. -/
theorem restart_discards (p : Props) (e : InputEvent) (s : TouchState)
    (hp : truthy s.gesture.isPressed = true) :
    (startHandler p e s).1.gesture = freshGesture e
    ∧ (startHandler p e s).1.didSlide = s.didSlide
    ∧ List.Sublist (cbKinds (startHandler p e s).2)
        [CbKind.start, CbKind.startX, CbKind.startY]
    ∧ (p.hasOnStart = true →
        Out.cb CbKind.start (freshGesture e) 0 ∈ (startHandler p e s).2) := by
  refine ⟨rfl, rfl, ?_, ?_⟩
  · simpa [startHandler] using cbKinds_handle_sublist (freshGesture e) e
      [(p.hasOnStart, CbKind.start), (p.hasOnStartX, CbKind.startX),
       (p.hasOnStartY, CbKind.startY)]
  · intro hOS
    show Out.cb CbKind.start (freshGesture e) 0 ∈ handle (freshGesture e) e
      [(p.hasOnStart, CbKind.start), (p.hasOnStartX, CbKind.startX),
       (p.hasOnStartY, CbKind.startY)]
    rw [cb_mem_handle]
    refine ⟨by simp [hOS], rfl, ?_⟩
    simp [freshGesture]

/-- Witness for C9: restarting over the in-flight slide gesture. -/
theorem restart_discards_witness :
    (startHandler pEx eS2 sSlide).1.gesture = freshGesture eS2
    ∧ (startHandler pEx eS2 sSlide).1.didSlide = sSlide.didSlide :=
  ⟨(restart_discards pEx eS2 sSlide (by decide)).1,
   (restart_discards pEx eS2 sSlide (by decide)).2.1⟩

/-- C10: end callbacks receive exactly the stored gesture record (the end
handler recomputes nothing from its event); at reachable states a gesture
that never became a slide has no shift fields at all; and a slide-flagged
move sample stores exactly its own displacements. -/
theorem end_reports_stored_shifts (p : Props) (s : TouchState) (e : InputEvent)
    (k : CbKind) (snap : Gesture) (d : Int) (hr : Reach p s) :
    (Out.cb k snap d ∈ (onEnd p e s).2 → snap = s.gesture)
    ∧ (truthy s.gesture.isSlide = false →
        s.gesture.shiftX = none ∧ s.gesture.shiftY = none
        ∧ s.gesture.shiftXAbs = none ∧ s.gesture.shiftYAbs = none)
    ∧ (truthy s.gesture.isPressed = true → isMultiTouch e = false →
        truthy (onMove p e s).1.gesture.isSlide = true →
        (onMove p e s).1.gesture.shiftX = some (e.x - s.gesture.startX.getD 0)
        ∧ (onMove p e s).1.gesture.shiftY = some (e.y - s.gesture.startY.getD 0)
        ∧ (onMove p e s).1.gesture.shiftXAbs = some (shiftXAbsOf e s.gesture)
        ∧ (onMove p e s).1.gesture.shiftYAbs = some (shiftYAbsOf e s.gesture)) := by
  obtain ⟨-, -, -, -, h5, -⟩ := reach_inv hr
  refine ⟨?_, h5, ?_⟩
  · intro hmem
    exact (cb_mem_onEnd hmem).2.1
  · intro hp hmt hs
    rw [onMove_moveStep hp hmt] at hs ⊢
    by_cases hsd : truthy (gDecided p e s.gesture).isSlide = true
    · have hg : (moveStep p e s).1.gesture = recordShifts e (gDecided p e s.gesture) := by
        simp only [moveStep]
        rw [moveFinish_slide hsd]
      rw [hg]
      obtain ⟨hsx, hsy, -, -⟩ := gDecided_starts p e s.gesture
      refine ⟨?_, ?_, ?_, ?_⟩ <;>
        simp [recordShifts, hsx, hsy, shiftXAbsOf, shiftYAbsOf]
    · have hrw : moveStep p e s = ({ s with gesture := gDecided p e s.gesture }, []) := by
        simp only [moveStep]
        exact moveFinish_noSlide (by simpa only [Bool.not_eq_true] using hsd)
      rw [hrw] at hs
      exact absurd hs hsd

/-- Witness for C10: the slide-locking sample `eM` stores its displacements. -/
theorem end_reports_stored_shifts_witness :
    (onMove pEx eM sStart).1.gesture.shiftX = some (eM.x - sStart.gesture.startX.getD 0)
    ∧ (onMove pEx eM sStart).1.gesture.shiftY = some (eM.y - sStart.gesture.startY.getD 0)
    ∧ (onMove pEx eM sStart).1.gesture.shiftXAbs = some (shiftXAbsOf eM sStart.gesture)
    ∧ (onMove pEx eM sStart).1.gesture.shiftYAbs = some (shiftYAbsOf eM sStart.gesture) :=
  (end_reports_stored_shifts pEx sStart eM CbKind.endG sStart.gesture 0
    (Reach.next Reach.init (Sig.start eS))).2.2 (by decide) (by decide) (by decide)

end Touch
